import Mathlib

/-!
Shallow embedding of the automatic-differentiation helper layer of the
deal.II library excerpt (`include/deal.II/differentiation/ad/ad_helpers.h`,
class `Differentiation::AD::ADHelperBase`).

The repository excerpt contains only the class declaration; the member
function bodies live outside the excerpt.  The behaviour of every member
function is therefore modelled from the specification document, and every
such definition carries a doc comment beginning `Modelled from the spec:`.
Tracked (auto-differentiable) numbers are modelled as exact symbolic
expressions over the independent-variable slots, evaluated over the
rational numbers, so that derivative queries are exact.
-/

namespace DealII
namespace AD

/-- Modelled from the spec: a tracked (auto-differentiable) number.  The
member function bodies that build ADOL-C or Sacado numbers are missing
from the excerpt, so a tracked number is modelled as a symbolic
expression over the independent-variable slots; operations performed with
it are exactly the expression structure that a tape would record. -/
inductive Expr where
  | const : ℚ → Expr
  | var : ℕ → Expr
  | add : Expr → Expr → Expr
  | sub : Expr → Expr → Expr
  | mul : Expr → Expr → Expr
  | neg : Expr → Expr
deriving Repr, DecidableEq

/-- Evaluation of a tracked expression at a vector of independent-variable
values (out-of-range variables evaluate to zero). -/
def Expr.eval (env : List ℚ) : Expr → ℚ
  | .const c => c
  | .var i => env.getD i 0
  | .add a b => Expr.eval env a + Expr.eval env b
  | .sub a b => Expr.eval env a - Expr.eval env b
  | .mul a b => Expr.eval env a * Expr.eval env b
  | .neg a => - Expr.eval env a

/-- Exact symbolic partial derivative of a tracked expression with respect
to independent variable `j`. -/
def Expr.derivE (j : ℕ) : Expr → Expr
  | .const _ => .const 0
  | .var i => .const (if i = j then 1 else 0)
  | .add a b => .add (Expr.derivE j a) (Expr.derivE j b)
  | .sub a b => .sub (Expr.derivE j a) (Expr.derivE j b)
  | .mul a b => .add (.mul (Expr.derivE j a) b) (.mul a (Expr.derivE j b))
  | .neg a => .neg (Expr.derivE j a)

/-- The reserved invalid tape index sentinel (`numbers::invalid_tape_index`);
a valid tape index must be strictly greater than it. -/
def invalid_tape_index : ℕ := 0

/-- The maximum tape index sentinel (`numbers::max_tape_index`); a valid
tape index must be strictly less than it. -/
def max_tape_index : ℕ := 4294967295

/-- The `dealii::numbers::invalid_unsigned_int` sentinel used as the
default argument of `reset` meaning "keep the current count". -/
def invalid_unsigned_int : ℕ := 4294967295

/-- A tape index is valid when it lies strictly between the invalid
sentinel and the maximum tape index. -/
def valid_tape_index (tape_index : ℕ) : Bool :=
  decide (invalid_tape_index < tape_index) && decide (tape_index < max_tape_index)

/-- Modelled from the spec: the content a taped backend stores for one
tape index.  The backend trace storage is not part of the excerpt; a tape
is modelled as the recorded dependent-variable expressions plus,
when `keep_values` was set at recording time, the embedded numeric values
of the independent variables, together with the four buffer-size hints
consumed when the tape recording started. -/
structure Tape where
  trace : List Expr
  recorded_values : Option (List ℚ)
  obufsize : ℕ
  lbufsize : ℕ
  vbufsize : ℕ
  tbufsize : ℕ
deriving Repr, DecidableEq

/-- The tape-lifecycle state-machine phases named by the specification. -/
inductive Phase where
  | Idle
  | Recording
  | Ready
  | Replaying
deriving Repr, DecidableEq

/-- The error taxonomy of the specification: precondition violations
(programmer error), backend resource exhaustion, and references to
unregistered or out-of-range tape resources. -/
inductive ADError where
  | preconditionViolation
  | resourceExhaustion
  | unregisteredResource
deriving Repr, DecidableEq

/-- Modelled from the spec: the state owned by one `ADHelperBase` helper
instance.  Field names follow the member variables declared in
`ad_helpers.h` (`active_tape_index`, `registered_tapes`, `keep_values`,
`is_recording_flag`, `use_stored_taped_buffer_sizes`, the four buffer
sizes, `independent_variable_values`, the registration flag vectors and
`dependent_variables`).  The process-global tape registry and trace
storage are carried in the state (`registered_tapes`, `tapes`), and the
spec's lifecycle phase is carried explicitly in `phase`. -/
structure ADHelperBase where
  n_independent : ℕ
  n_dependent : ℕ
  active_tape_index : ℕ
  registered_tapes : List ℕ
  keep_values : Bool
  is_recording_flag : Bool
  use_stored_taped_buffer_sizes : Bool
  obufsize : ℕ
  lbufsize : ℕ
  vbufsize : ℕ
  tbufsize : ℕ
  independent_variable_values : List ℚ
  registered_independent_variable_values : List Bool
  registered_marked_independent_variables : List Bool
  dependent_variables : List Expr
  registered_marked_dependent_variables : List Bool
  marking_order : List ℕ
  current_mark_seq : List ℕ
  tapes : List (ℕ × Tape)
  phase : Phase
deriving Repr, DecidableEq

namespace ADHelperBase

/-- Modelled from the spec: the constructor
`ADHelperBase(n_independent_variables, n_dependent_variables)` (whose body
is missing from the excerpt).  It fixes the two slot counts, leaves the
active-tape index at the invalid sentinel, deactivates recording, and
starts with every registration flag cleared. -/
def init (n_independent_variables n_dependent_variables : ℕ) : ADHelperBase :=
  { n_independent := n_independent_variables
    n_dependent := n_dependent_variables
    active_tape_index := invalid_tape_index
    registered_tapes := []
    keep_values := true
    is_recording_flag := false
    use_stored_taped_buffer_sizes := false
    obufsize := 67108864
    lbufsize := 67108864
    vbufsize := 67108864
    tbufsize := 67108864
    independent_variable_values := List.replicate n_independent_variables 0
    registered_independent_variable_values := List.replicate n_independent_variables false
    registered_marked_independent_variables := List.replicate n_independent_variables false
    dependent_variables := List.replicate n_dependent_variables (Expr.const 0)
    registered_marked_dependent_variables := List.replicate n_dependent_variables false
    marking_order := []
    current_mark_seq := []
    tapes := []
    phase := Phase.Idle }

/-- Returns the number of independent variables this helper works with. -/
def n_independent_variables (s : ADHelperBase) : ℕ := s.n_independent

/-- Returns the number of dependent variables this helper operates on. -/
def n_dependent_variables (s : ADHelperBase) : ℕ := s.n_dependent

/-- Returns whether the helper is tracking (recording) operations. -/
def is_recording (s : ADHelperBase) : Bool := s.is_recording_flag

/-- Returns the tape number currently activated for recording or reading. -/
def active_tape (s : ADHelperBase) : ℕ := s.active_tape_index

/-- Modelled from the spec: `is_registered_tape(tape_index)` (body missing
from the excerpt) — whether a tape number has already been used or
registered. -/
def is_registered_tape (s : ADHelperBase) (tape_index : ℕ) : Bool :=
  s.registered_tapes.contains tape_index

/-- Modelled from the spec: `reset(n_independent_variables,
n_dependent_variables, clear_registered_tapes)` (body missing from the
excerpt).  Returns the machine to `Idle`: the active-tape index becomes
the invalid sentinel, recording mode is deactivated, every registration
flag is cleared, the counts are kept unless an explicit non-sentinel
count is passed, and when `clear_registered_tapes` is set the set of
previously-used tape indices is forgotten.  The backend-owned trace
content itself is not erased. -/
def reset (s : ADHelperBase) (n_ind n_dep : ℕ) (clear_registered_tapes : Bool) :
    ADHelperBase :=
  let ni := if n_ind = invalid_unsigned_int then s.n_independent else n_ind
  let nd := if n_dep = invalid_unsigned_int then s.n_dependent else n_dep
  { n_independent := ni
    n_dependent := nd
    active_tape_index := invalid_tape_index
    registered_tapes := if clear_registered_tapes then [] else s.registered_tapes
    keep_values := true
    is_recording_flag := false
    use_stored_taped_buffer_sizes := false
    obufsize := 67108864
    lbufsize := 67108864
    vbufsize := 67108864
    tbufsize := 67108864
    independent_variable_values := List.replicate ni 0
    registered_independent_variable_values := List.replicate ni false
    registered_marked_independent_variables := List.replicate ni false
    dependent_variables := List.replicate nd (Expr.const 0)
    registered_marked_dependent_variables := List.replicate nd false
    marking_order := []
    current_mark_seq := []
    tapes := s.tapes
    phase := Phase.Idle }

/-- Modelled from the spec: `set_tape_buffer_sizes(obufsize, lbufsize,
vbufsize, tbufsize)` (body missing from the excerpt).  Stores four
byte-size hints to be consumed by the next `start_recording_operations`
call.  `tunable_trace_storage` models the backend capability: for a
backend without tunable trace storage the call is a no-op; in either
case the call is total and never fails. -/
def set_tape_buffer_sizes (tunable_trace_storage : Bool) (s : ADHelperBase)
    (o l v t : ℕ) : ADHelperBase :=
  if tunable_trace_storage then
    { s with
      use_stored_taped_buffer_sizes := true
      obufsize := o
      lbufsize := l
      vbufsize := v
      tbufsize := t }
  else s

/-- Modelled from the spec: `start_recording_operations(tape_index,
overwrite_tape, keep_values)` (body missing from the excerpt).  Fails with
a precondition violation when the tape index is outside the open interval
between the sentinels, or when a recording is already in progress.  When
the index is already registered and `overwrite_tape` is false, no new
recording starts and the call returns `false` with the state (and in
particular the existing trace) unaltered.  Otherwise any existing trace
for the index is discarded, a fresh recording begins consuming the stored
buffer-size hints, the per-cycle registration flags are reset, and the
call returns `true`. -/
def start_recording_operations (s : ADHelperBase) (tape_index : ℕ)
    (overwrite_tape keep : Bool) : Except ADError (Bool × ADHelperBase) :=
  if valid_tape_index tape_index = false then .error .preconditionViolation
  else if s.is_recording_flag then .error .preconditionViolation
  else if s.is_registered_tape tape_index && !overwrite_tape then .ok (false, s)
  else
    let fresh : Tape :=
      { trace := []
        recorded_values := none
        obufsize := if s.use_stored_taped_buffer_sizes then s.obufsize else 67108864
        lbufsize := if s.use_stored_taped_buffer_sizes then s.lbufsize else 67108864
        vbufsize := if s.use_stored_taped_buffer_sizes then s.vbufsize else 67108864
        tbufsize := if s.use_stored_taped_buffer_sizes then s.tbufsize else 67108864 }
    .ok (true,
      { s with
        active_tape_index := tape_index
        registered_tapes :=
          if s.registered_tapes.contains tape_index then s.registered_tapes
          else tape_index :: s.registered_tapes
        keep_values := keep
        is_recording_flag := true
        independent_variable_values := List.replicate s.n_independent 0
        registered_independent_variable_values := List.replicate s.n_independent false
        registered_marked_independent_variables := List.replicate s.n_independent false
        dependent_variables := List.replicate s.n_dependent (Expr.const 0)
        registered_marked_dependent_variables := List.replicate s.n_dependent false
        current_mark_seq := []
        tapes := (tape_index, fresh) :: s.tapes.filter (fun p => p.1 != tape_index)
        phase := Phase.Recording })

/-- Modelled from the spec: `stop_recording_operations(write_tapes_to_file)`
(body missing from the excerpt).  Fails with a precondition violation when
not currently recording.  Otherwise the traced dependent-variable
expressions are written to the active tape — together with the embedded
independent-variable values when `keep_values` was set — recording mode is
deactivated and the tape becomes ready for queries.  Persisting the trace
to a file is a backend-owned durable-storage effect outside this model. -/
def stop_recording_operations (s : ADHelperBase) (write_tapes_to_file : Bool) :
    Except ADError ADHelperBase :=
  if s.is_recording_flag = false then .error .preconditionViolation
  else
    match s.tapes.find? (fun p => p.1 == s.active_tape_index) with
    | none => .error .preconditionViolation
    | some pt =>
      .ok { s with
        is_recording_flag := false
        marking_order :=
          if s.marking_order.isEmpty then s.current_mark_seq else s.marking_order
        tapes :=
          (pt.1,
            { pt.2 with
              trace := s.dependent_variables
              recorded_values :=
                if s.keep_values then some s.independent_variable_values else none })
          :: s.tapes.filter (fun p => p.1 != s.active_tape_index)
        phase := Phase.Ready }

/-- Modelled from the spec: `activate_recorded_tape(tape_index)` (body
missing from the excerpt).  Fails with an unregistered-resource error when
the index is outside the valid numeric range or was never registered;
otherwise the tape becomes the active one and the machine replays it. -/
def activate_recorded_tape (s : ADHelperBase) (tape_index : ℕ) :
    Except ADError ADHelperBase :=
  if valid_tape_index tape_index = false then .error .unregisteredResource
  else if s.is_registered_tape tape_index = false then .error .unregisteredResource
  else .ok { s with
    active_tape_index := tape_index
    is_recording_flag := false
    phase := Phase.Replaying }

/-- Modelled from the spec: `set_sensitivity_value(index, value)` (body
missing from the excerpt) — the "set value" operation.  Writes the scalar
value of independent slot `index` and sets the slot's registered flag;
fails with a precondition violation when the index is out of range.  It
may be called again across evaluation points (tape reuse). -/
def set_sensitivity_value (s : ADHelperBase) (index : ℕ) (value : ℚ) :
    Except ADError ADHelperBase :=
  if s.n_independent ≤ index then .error .preconditionViolation
  else .ok { s with
    independent_variable_values := s.independent_variable_values.set index value
    registered_independent_variable_values :=
      s.registered_independent_variable_values.set index true }

/-- Modelled from the spec: `mark_independent_variable(index, out)` (body
missing from the excerpt) — "mark as sensitive".  Converts slot `index`
into a tracked number (modelled as the symbolic variable `Expr.var index`)
and records the marking.  Fails with a precondition violation when the
index is out of range, when the slot was already marked in the current
cycle, or when the marking departs from the order established by the
first marking pass. -/
def mark_independent_variable (s : ADHelperBase) (index : ℕ) :
    Except ADError (Expr × ADHelperBase) :=
  if s.n_independent ≤ index then .error .preconditionViolation
  else if s.current_mark_seq.contains index then .error .preconditionViolation
  else if !s.marking_order.isEmpty &&
      !(s.marking_order.get? s.current_mark_seq.length == some index) then
    .error .preconditionViolation
  else .ok (Expr.var index,
    { s with
      registered_marked_independent_variables :=
        s.registered_marked_independent_variables.set index true
      current_mark_seq := s.current_mark_seq ++ [index] })

/-- Modelled from the spec: `register_dependent_variable(index, func)`
(body missing from the excerpt).  Binds dependent slot `index` to the
tracked expression `func`, once per cycle: it fails with a precondition
violation when the index is out of range or when the slot was already
registered this cycle. -/
def register_dependent_variable (s : ADHelperBase) (index : ℕ) (func : Expr) :
    Except ADError ADHelperBase :=
  if s.n_dependent ≤ index then .error .preconditionViolation
  else if s.registered_marked_dependent_variables.getD index false then
    .error .preconditionViolation
  else .ok { s with
    dependent_variables := s.dependent_variables.set index func
    registered_marked_dependent_variables :=
      s.registered_marked_dependent_variables.set index true }

/-- Modelled from the spec: the common guard of every derivative query.
Queries are forbidden while recording (precondition violation) and are
permitted only from the `Ready` or `Replaying` phases.  From `Ready` the
query evaluates the active tape's trace at the values embedded in the
tape at recording time (possible only when `keep_values` embedded them);
from `Replaying` it evaluates the trace at the currently set
independent-variable values. -/
def query_env (s : ADHelperBase) : Except ADError (List ℚ × List Expr) :=
  if s.is_recording_flag then .error .preconditionViolation
  else if !(s.phase == Phase.Ready || s.phase == Phase.Replaying) then
    .error .preconditionViolation
  else
    match s.tapes.find? (fun p => p.1 == s.active_tape_index) with
    | none => .error .unregisteredResource
    | some pt =>
      match s.phase with
      | Phase.Ready =>
        match pt.2.recorded_values with
        | some vals => .ok (vals, pt.2.trace)
        | none => .error .preconditionViolation
      | _ => .ok (s.independent_variable_values, pt.2.trace)

/-- Modelled from the spec: the `value(i)` derivative query (body missing
from the excerpt) — the exact scalar value of dependent variable `i`. -/
def value (s : ADHelperBase) (i : ℕ) : Except ADError ℚ :=
  match s.query_env with
  | .error err => .error err
  | .ok (env, trace) =>
    match trace.get? i with
    | none => .error .preconditionViolation
    | some ex => .ok (Expr.eval env ex)

/-- Modelled from the spec: the `gradient(i)` derivative query (body
missing from the excerpt), component `j` — the exact first derivative of
dependent variable `i` with respect to independent variable `j`. -/
def gradient (s : ADHelperBase) (i j : ℕ) : Except ADError ℚ :=
  match s.query_env with
  | .error err => .error err
  | .ok (env, trace) =>
    if s.n_independent ≤ j then .error .preconditionViolation
    else
      match trace.get? i with
      | none => .error .preconditionViolation
      | some ex => .ok (Expr.eval env (Expr.derivE j ex))

/-- Modelled from the spec: the `hessian(i)` derivative query (body
missing from the excerpt), component `(j, k)` — the exact second
derivative of dependent variable `i`. -/
def hessian (s : ADHelperBase) (i j k : ℕ) : Except ADError ℚ :=
  match s.query_env with
  | .error err => .error err
  | .ok (env, trace) =>
    if s.n_independent ≤ j then .error .preconditionViolation
    else if s.n_independent ≤ k then .error .preconditionViolation
    else
      match trace.get? i with
      | none => .error .preconditionViolation
      | some ex => .ok (Expr.eval env (Expr.derivE k (Expr.derivE j ex)))

/-- Modelled from the spec: the `jacobian()` derivative query (body
missing from the excerpt) — the full M-by-N array of first derivatives
of every traced dependent variable. -/
def jacobian (s : ADHelperBase) : Except ADError (List (List ℚ)) :=
  match s.query_env with
  | .error err => .error err
  | .ok (env, trace) =>
    .ok (trace.map (fun ex =>
      (List.range s.n_independent).map (fun j => Expr.eval env (Expr.derivE j ex))))

end ADHelperBase
end AD
end DealII

namespace DealII
namespace AD

open ADHelperBase

/-- The spec's concrete scenario, recording phase: two independent
variables set to (3, 5), tape 1, one dependent variable registered as
the product of the two tracked numbers handed out by the marking calls.
This is the helper state while still recording (before the stop call). -/
def scenario_recording : Except ADError ADHelperBase := do
  let s0 := ADHelperBase.init 2 1
  let r ← s0.start_recording_operations 1 false true
  let s1 ← r.2.set_sensitivity_value 0 3
  let s2 ← s1.set_sensitivity_value 1 5
  let m0 ← s2.mark_independent_variable 0
  let m1 ← m0.2.mark_independent_variable 1
  m1.2.register_dependent_variable 0 (Expr.mul m0.1 m1.1)

/-- The spec's concrete scenario after `stop_recording_operations`: the
tape is ready and derivative queries are permitted. -/
def scenario_ready : Except ADError ADHelperBase := do
  let s ← scenario_recording
  s.stop_recording_operations false

/-- The recording-phase scenario state, extracted (the pipeline is proved
to succeed in the theorems below; the fallback is never reached). -/
def recState : ADHelperBase :=
  match scenario_recording with
  | .ok s => s
  | .error _ => ADHelperBase.init 0 0

/-- The ready-phase scenario state, extracted. -/
def readyState : ADHelperBase :=
  match scenario_ready with
  | .ok s => s
  | .error _ => ADHelperBase.init 0 0

/-- The ready scenario state answers derivative queries from the recorded
tape at the embedded values `[3, 5]` with the single traced expression
being the product of the two marked variables. -/
lemma readyState_query_env :
    readyState.query_env = .ok ([3, 5], [Expr.mul (Expr.var 0) (Expr.var 1)]) := rfl

/-- The ready scenario state still expects two independent variables. -/
lemma readyState_n_ind : readyState.n_independent = 2 := rfl

/-- C2: for two independent variables set to (3, 5) and the single
dependent variable registered as the product of the two tracked numbers,
the derivative queries return exactly the value 15, the gradient (5, 3)
and the Hessian [[0, 1], [1, 0]]. -/
theorem product_scenario_exact_value_gradient_hessian :
    readyState.value 0 = .ok 15 ∧
    readyState.gradient 0 0 = .ok 5 ∧ readyState.gradient 0 1 = .ok 3 ∧
    readyState.hessian 0 0 0 = .ok 0 ∧ readyState.hessian 0 0 1 = .ok 1 ∧
    readyState.hessian 0 1 0 = .ok 1 ∧ readyState.hessian 0 1 1 = .ok 0 := by
  refine ⟨?_, ?_, ?_, ?_, ?_, ?_, ?_⟩ <;>
    norm_num [ADHelperBase.value, ADHelperBase.gradient, ADHelperBase.hessian,
      readyState_query_env, readyState_n_ind, Expr.eval, Expr.derivE,
      List.getD, List.get?]

/-- C1: starting a recording on an already-registered tape index with
`overwrite_tape` false returns `false` and leaves the helper state — in
particular the existing trace for that index — completely unaltered;
with `overwrite_tape` true it returns `true`, recording begins, and the
trace stored under that index is discarded (reset to the fresh empty
trace). -/
theorem start_recording_registered_reuse_or_overwrite
    (s : ADHelperBase) (idx : ℕ) (keep : Bool)
    (hv : valid_tape_index idx = true)
    (hr : s.is_recording_flag = false)
    (hreg : s.is_registered_tape idx = true) :
    s.start_recording_operations idx false keep = .ok (false, s) ∧
    (s.start_recording_operations idx true keep).map
        (fun r => (r.1, r.2.is_recording_flag,
          (r.2.tapes.find? (fun p => p.1 == idx)).map (fun q => q.2.trace))) =
      .ok (true, true, some []) := by
  constructor
  · simp [ADHelperBase.start_recording_operations, hv, hr, hreg]
  · simp [ADHelperBase.start_recording_operations, hv, hr, hreg, Except.map,
      List.find?_cons_of_pos]

/-- Closed witness for the registered-tape reuse/overwrite behaviour of
`start_recording_operations`, at the concrete ready scenario state whose
tape 1 is registered. -/
theorem start_recording_registered_reuse_or_overwrite_witness :
    readyState.start_recording_operations 1 false true = .ok (false, readyState) ∧
    (readyState.start_recording_operations 1 true true).map
        (fun r => (r.1, r.2.is_recording_flag,
          (r.2.tapes.find? (fun p => p.1 == 1)).map (fun q => q.2.trace))) =
      .ok (true, true, some []) :=
  start_recording_registered_reuse_or_overwrite readyState 1 true rfl rfl rfl

/-- C3: marking a valid independent-variable slot as sensitive once in a
cycle succeeds and hands out the tracked number for that slot; marking
the same slot a second time within the same cycle fails with a
precondition violation. -/
theorem mark_independent_variable_once_succeeds_twice_fails
    (s : ADHelperBase) (index : ℕ)
    (h1 : index < s.n_independent)
    (h2 : s.marking_order = [])
    (h3 : s.current_mark_seq.contains index = false) :
    ∃ s', s.mark_independent_variable index = .ok (Expr.var index, s') ∧
      s'.mark_independent_variable index = .error .preconditionViolation := by
  refine ⟨{ s with
      registered_marked_independent_variables :=
        s.registered_marked_independent_variables.set index true
      current_mark_seq := s.current_mark_seq ++ [index] }, ?_, ?_⟩
  · have h3' : index ∉ s.current_mark_seq := by simpa using h3
    simp [ADHelperBase.mark_independent_variable, Nat.not_le.mpr h1, h2, h3']
  · simp [ADHelperBase.mark_independent_variable, Nat.not_le.mpr h1]

/-- Closed witness for the mark-once-then-twice behaviour at a freshly
constructed helper with two independent slots. -/
theorem mark_independent_variable_once_succeeds_twice_fails_witness :
    ∃ s', (ADHelperBase.init 2 1).mark_independent_variable 0 =
        .ok (Expr.var 0, s') ∧
      s'.mark_independent_variable 0 = .error .preconditionViolation :=
  mark_independent_variable_once_succeeds_twice_fails
    (ADHelperBase.init 2 1) 0 (by decide) rfl rfl

/-- C4: while the helper is recording, every derivative query — value,
gradient, Hessian or Jacobian evaluation — fails with a precondition
violation; from the Ready or Replaying phases, with the query guard
satisfied and the indices in range, every such query succeeds. -/
theorem derivative_queries_forbidden_while_recording
    (s : ADHelperBase) (i j k : ℕ) :
    (s.phase = Phase.Recording →
      s.value i = .error .preconditionViolation ∧
      s.gradient i j = .error .preconditionViolation ∧
      s.hessian i j k = .error .preconditionViolation ∧
      s.jacobian = .error .preconditionViolation) ∧
    ((s.phase = Phase.Ready ∨ s.phase = Phase.Replaying) →
      ∀ env trace, s.query_env = .ok (env, trace) → i < trace.length →
        j < s.n_independent → k < s.n_independent →
        (∃ q, s.value i = .ok q) ∧ (∃ q, s.gradient i j = .ok q) ∧
        (∃ q, s.hessian i j k = .ok q) ∧ (∃ m, s.jacobian = .ok m)) := by
  constructor
  · intro hp
    have hq : s.query_env = .error .preconditionViolation := by
      cases hfl : s.is_recording_flag <;>
        simp [ADHelperBase.query_env, hp, hfl]
    refine ⟨?_, ?_, ?_, ?_⟩ <;>
      simp [ADHelperBase.value, ADHelperBase.gradient, ADHelperBase.hessian,
        ADHelperBase.jacobian, hq]
  · intro _hph env trace hq hi hj hk
    have hget2 : getElem? trace i = some (trace.get ⟨i, hi⟩) := by
      simp [List.getElem?_eq_getElem hi]
    have hv : s.value i = .ok (Expr.eval env (trace.get ⟨i, hi⟩)) := by
      simp [ADHelperBase.value, hq, hget2]
    have hg : s.gradient i j =
        .ok (Expr.eval env (Expr.derivE j (trace.get ⟨i, hi⟩))) := by
      simp [ADHelperBase.gradient, hq, hget2, Nat.not_le.mpr hj]
    have hh : s.hessian i j k =
        .ok (Expr.eval env (Expr.derivE k (Expr.derivE j (trace.get ⟨i, hi⟩)))) := by
      simp [ADHelperBase.hessian, hq, hget2, Nat.not_le.mpr hj, Nat.not_le.mpr hk]
    have hjac : s.jacobian = .ok (trace.map (fun ex =>
        (List.range s.n_independent).map
          (fun jj => Expr.eval env (Expr.derivE jj ex)))) := by
      simp [ADHelperBase.jacobian, hq]
    exact ⟨⟨_, hv⟩, ⟨_, hg⟩, ⟨_, hh⟩, ⟨_, hjac⟩⟩

/-- Closed witness: at the concrete recording-phase scenario state the
value query is a precondition violation, and at the ready-phase scenario
state it succeeds. -/
theorem derivative_queries_forbidden_while_recording_witness :
    recState.value 0 = .error .preconditionViolation ∧
    (readyState.value 0).isOk = true := by
  constructor
  · exact ((derivative_queries_forbidden_while_recording recState 0 0 0).1 rfl).1
  · obtain ⟨q, hq⟩ :=
      (((derivative_queries_forbidden_while_recording readyState 0 0 0).2
        (Or.inl rfl)) [3, 5] [Expr.mul (Expr.var 0) (Expr.var 1)]
        readyState_query_env (by decide) (by decide) (by decide)).1
    rw [hq]; rfl

/-- C5: activating a recorded tape fails with an unregistered-resource
error when the index is outside the valid numeric range (it must exceed
the invalid sentinel and stay under the maximum) or was never
registered; for a registered, in-range index it succeeds, making that
tape active for replaying. -/
theorem activate_recorded_tape_requires_registered_in_range
    (s : ADHelperBase) (idx : ℕ) :
    (valid_tape_index idx = false →
      s.activate_recorded_tape idx = .error .unregisteredResource) ∧
    (s.is_registered_tape idx = false →
      s.activate_recorded_tape idx = .error .unregisteredResource) ∧
    (valid_tape_index idx = true → s.is_registered_tape idx = true →
      ∃ s', s.activate_recorded_tape idx = .ok s' ∧
        s'.active_tape_index = idx ∧ s'.phase = Phase.Replaying) := by
  refine ⟨?_, ?_, ?_⟩
  · intro h; simp [ADHelperBase.activate_recorded_tape, h]
  · intro h
    cases hv : valid_tape_index idx <;>
      simp [ADHelperBase.activate_recorded_tape, hv, h]
  · intro hv hr
    have hres : s.activate_recorded_tape idx = .ok { s with
        active_tape_index := idx
        is_recording_flag := false
        phase := Phase.Replaying } := by
      simp [ADHelperBase.activate_recorded_tape, hv, hr]
    exact ⟨_, hres, rfl, rfl⟩

/-- Closed witness: activating the reserved invalid index 0 and an
unregistered index both fail with the unregistered-resource error, while
activating the registered tape 1 of the scenario succeeds. -/
theorem activate_recorded_tape_requires_registered_in_range_witness :
    readyState.activate_recorded_tape 0 = .error .unregisteredResource ∧
    (ADHelperBase.init 1 1).activate_recorded_tape 7 =
      .error .unregisteredResource ∧
    (readyState.activate_recorded_tape 1).map
        (fun r => (r.active_tape_index, r.phase)) = .ok (1, Phase.Replaying) := by
  refine ⟨(activate_recorded_tape_requires_registered_in_range readyState 0).1 rfl,
    (activate_recorded_tape_requires_registered_in_range
      (ADHelperBase.init 1 1) 7).2.1 rfl, ?_⟩
  obtain ⟨s', h1, h2, h3⟩ :=
    (activate_recorded_tape_requires_registered_in_range readyState 1).2.2 rfl rfl
  rw [h1]; simp [Except.map, h2, h3]

/-- C6: reset returns the helper to the Idle phase with the active-tape
index back at the invalid sentinel and recording deactivated, clears
every independent- and dependent-variable registration flag, and — when
`clear_registered_tapes` is set — forgets the set of previously used
tape indices. -/
theorem reset_returns_to_idle_and_clears_state
    (s : ADHelperBase) (ni nd : ℕ) (clear : Bool) :
    (s.reset ni nd clear).phase = Phase.Idle ∧
    (s.reset ni nd clear).active_tape_index = invalid_tape_index ∧
    (s.reset ni nd clear).is_recording_flag = false ∧
    (∀ b ∈ (s.reset ni nd clear).registered_independent_variable_values,
      b = false) ∧
    (∀ b ∈ (s.reset ni nd clear).registered_marked_independent_variables,
      b = false) ∧
    (∀ b ∈ (s.reset ni nd clear).registered_marked_dependent_variables,
      b = false) ∧
    (clear = true → (s.reset ni nd clear).registered_tapes = []) := by
  refine ⟨rfl, rfl, rfl, ?_, ?_, ?_, ?_⟩
  · intro b hb; exact List.eq_of_mem_replicate hb
  · intro b hb; exact List.eq_of_mem_replicate hb
  · intro b hb; exact List.eq_of_mem_replicate hb
  · intro hc; simp [ADHelperBase.reset, hc]

/-- Closed witness: resetting the ready scenario state with the sentinel
counts and tape-clearing enabled lands in Idle with no active tape, no
recording, and an empty registered-tape set. -/
theorem reset_returns_to_idle_and_clears_state_witness :
    (readyState.reset invalid_unsigned_int invalid_unsigned_int true).phase =
      Phase.Idle ∧
    (readyState.reset invalid_unsigned_int invalid_unsigned_int
      true).active_tape_index = invalid_tape_index ∧
    (readyState.reset invalid_unsigned_int invalid_unsigned_int
      true).is_recording_flag = false ∧
    (readyState.reset invalid_unsigned_int invalid_unsigned_int
      true).registered_tapes = [] := by
  obtain ⟨h1, h2, h3, -, -, -, h7⟩ :=
    reset_returns_to_idle_and_clears_state readyState
      invalid_unsigned_int invalid_unsigned_int true
  exact ⟨h1, h2, h3, h7 rfl⟩

/-- C7: stopping a recording performed with `keep_values` set embeds the
current independent-variable values in the tape, so that a value query
made immediately afterwards — with no further set-value call —
reproduces exactly the dependent-variable value computed during the
recording. -/
theorem stop_recording_keep_values_roundtrip
    (s : ADHelperBase) (i : ℕ) (t : ℕ × Tape)
    (hrec : s.is_recording_flag = true)
    (hkeep : s.keep_values = true)
    (ht : s.tapes.find? (fun p => p.1 == s.active_tape_index) = some t)
    (hi : i < s.dependent_variables.length) :
    ∃ s', s.stop_recording_operations false = .ok s' ∧
      s'.value i = .ok (Expr.eval s.independent_variable_values
        (s.dependent_variables.get ⟨i, hi⟩)) := by
  have hstop : s.stop_recording_operations false = .ok { s with
      is_recording_flag := false
      marking_order :=
        if s.marking_order.isEmpty then s.current_mark_seq else s.marking_order
      tapes := (t.1, { t.2 with
          trace := s.dependent_variables
          recorded_values := some s.independent_variable_values }) ::
        s.tapes.filter (fun p => p.1 != s.active_tape_index)
      phase := Phase.Ready } := by
    simp [ADHelperBase.stop_recording_operations, hrec, ht, hkeep]
  refine ⟨_, hstop, ?_⟩
  have ht1 : t.1 = s.active_tape_index := by
    have := List.find?_some ht
    simpa using this
  have hget2 : getElem? s.dependent_variables i =
      some (s.dependent_variables.get ⟨i, hi⟩) := by
    simp [List.getElem?_eq_getElem hi]
  simp [ADHelperBase.value, ADHelperBase.query_env, ht1, hget2,
    List.find?_cons_of_pos]

/-- Closed witness: stopping the concrete recording scenario (recorded
with `keep_values` true) and immediately querying the value of the
single dependent variable returns exactly 15, the value computed during
recording at the embedded inputs (3, 5). -/
theorem stop_recording_keep_values_roundtrip_witness :
    (recState.stop_recording_operations false).map (fun r => r.value 0) =
      .ok (.ok 15) := by
  obtain ⟨s', h1, h2⟩ := stop_recording_keep_values_roundtrip recState 0
    (1, { trace := []
          recorded_values := none
          obufsize := 67108864
          lbufsize := 67108864
          vbufsize := 67108864
          tbufsize := 67108864 })
    rfl rfl rfl (by decide)
  rw [h1]
  simp only [Except.map]
  rw [h2]
  show Except.ok (Except.ok ((3 : ℚ) * 5)) =
    (Except.ok (Except.ok 15) : Except ADError (Except ADError ℚ))
  norm_num

/-- C8: registering a dependent variable fails with a precondition
violation when the slot index is out of range or when the slot was
already registered this cycle; for an in-range unregistered slot it
succeeds, and any second registration of that slot afterwards fails —
each dependent slot is bound exactly once per cycle. -/
theorem register_dependent_variable_exactly_once
    (s : ADHelperBase) (index : ℕ) (ex : Expr) :
    (s.n_dependent ≤ index →
      s.register_dependent_variable index ex = .error .preconditionViolation) ∧
    (s.registered_marked_dependent_variables.getD index false = true →
      s.register_dependent_variable index ex = .error .preconditionViolation) ∧
    (index < s.n_dependent →
      index < s.registered_marked_dependent_variables.length →
      s.registered_marked_dependent_variables.getD index false = false →
      ∃ s', s.register_dependent_variable index ex = .ok s' ∧
        ∀ ex2, s'.register_dependent_variable index ex2 =
          .error .preconditionViolation) := by
  refine ⟨?_, ?_, ?_⟩
  · intro h; simp [ADHelperBase.register_dependent_variable, h]
  · intro h
    simp only [List.getD, List.get?_eq_getElem?] at h
    by_cases h0 : s.n_dependent ≤ index
    · simp [ADHelperBase.register_dependent_variable, h0]
    · simp [ADHelperBase.register_dependent_variable, h0, h]
  · intro h1 h2 h3
    simp only [List.getD, List.get?_eq_getElem?] at h3
    have hok : s.register_dependent_variable index ex = .ok { s with
        dependent_variables := s.dependent_variables.set index ex
        registered_marked_dependent_variables :=
          s.registered_marked_dependent_variables.set index true } := by
      simp [ADHelperBase.register_dependent_variable, Nat.not_le.mpr h1, h3]
    refine ⟨_, hok, ?_⟩
    intro ex2
    simp [ADHelperBase.register_dependent_variable, Nat.not_le.mpr h1,
      List.getElem?_set_eq_of_lt, h2]

/-- Closed witness: an out-of-range dependent registration fails, and so
does re-registering slot 0 of the scenario state, whose only dependent
slot is already bound this cycle. -/
theorem register_dependent_variable_exactly_once_witness :
    (ADHelperBase.init 1 1).register_dependent_variable 5 (Expr.var 0) =
      .error .preconditionViolation ∧
    recState.register_dependent_variable 0 (Expr.var 0) =
      .error .preconditionViolation :=
  ⟨(register_dependent_variable_exactly_once
      (ADHelperBase.init 1 1) 5 (Expr.var 0)).1 (by decide),
   (register_dependent_variable_exactly_once
      recState 0 (Expr.var 0)).2.1 rfl⟩

/-- C9: setting the tape buffer sizes stores four byte-size hints without
touching any recorded tape or the registered-tape set; for a backend
without tunable trace storage it is the identity (a no-op that cannot
fail, the operation being total); and the hints are consumed by the next
recording start, whose fresh tape carries exactly the stored sizes. -/
theorem set_tape_buffer_sizes_advisory_next_tape_only
    (tunable : Bool) (s : ADHelperBase) (o l v t : ℕ) :
    (ADHelperBase.set_tape_buffer_sizes tunable s o l v t).tapes = s.tapes ∧
    (ADHelperBase.set_tape_buffer_sizes tunable s o l v t).registered_tapes =
      s.registered_tapes ∧
    (tunable = false → ADHelperBase.set_tape_buffer_sizes tunable s o l v t = s) ∧
    (tunable = true → ∀ idx ow kp r,
      (ADHelperBase.set_tape_buffer_sizes tunable s o l v t).start_recording_operations
          idx ow kp = .ok (true, r) →
      r.tapes.find? (fun p => p.1 == idx) =
        some (idx, { trace := []
                     recorded_values := none
                     obufsize := o
                     lbufsize := l
                     vbufsize := v
                     tbufsize := t })) := by
  refine ⟨?_, ?_, ?_, ?_⟩
  · cases tunable <;> simp [ADHelperBase.set_tape_buffer_sizes]
  · cases tunable <;> simp [ADHelperBase.set_tape_buffer_sizes]
  · intro h; subst h; simp [ADHelperBase.set_tape_buffer_sizes]
  · intro h idx ow kp r hr
    subst h
    simp only [ADHelperBase.set_tape_buffer_sizes, if_true,
      ADHelperBase.start_recording_operations] at hr
    split at hr
    · simp at hr
    · split at hr
      · simp at hr
      · split at hr
        · simp at hr
        · simp only [Except.ok.injEq, Prod.mk.injEq, true_and] at hr
          subst hr
          simp [List.find?_cons_of_pos]

/-- The state reached by starting a recording on tape 1 right after
storing the buffer-size hints (1, 2, 3, 4) on a fresh helper; used to
witness that the next recorded tape consumes the stored hints. -/
def startedState : ADHelperBase :=
  match (ADHelperBase.set_tape_buffer_sizes true (ADHelperBase.init 2 1)
      1 2 3 4).start_recording_operations 1 false true with
  | .ok r => r.2
  | .error _ => ADHelperBase.init 0 0

/-- Closed witness: storing hints (1, 2, 3, 4) leaves the (empty) tape
storage untouched, is the identity for a non-tunable backend, and the
tape recorded by the following start call carries exactly those sizes. -/
theorem set_tape_buffer_sizes_advisory_next_tape_only_witness :
    (ADHelperBase.set_tape_buffer_sizes true (ADHelperBase.init 2 1)
      1 2 3 4).tapes = (ADHelperBase.init 2 1).tapes ∧
    ADHelperBase.set_tape_buffer_sizes false (ADHelperBase.init 2 1) 1 2 3 4 =
      ADHelperBase.init 2 1 ∧
    startedState.tapes.find? (fun p => p.1 == 1) =
      some (1, { trace := []
                 recorded_values := none
                 obufsize := 1
                 lbufsize := 2
                 vbufsize := 3
                 tbufsize := 4 }) := by
  have h := set_tape_buffer_sizes_advisory_next_tape_only true
    (ADHelperBase.init 2 1) 1 2 3 4
  have h' := set_tape_buffer_sizes_advisory_next_tape_only false
    (ADHelperBase.init 2 1) 1 2 3 4
  refine ⟨h.1, h'.2.2.1 rfl, ?_⟩
  exact h.2.2.2 rfl 1 false true startedState rfl

/-- The pair of slot counts a helper reports through its two public
count queries. -/
def ADHelperBase.counts (s : ADHelperBase) : ℕ × ℕ :=
  (s.n_independent_variables, s.n_dependent_variables)

/-- C10: the two count queries return exactly the counts fixed at
construction, and every operation — reset with the sentinel "keep"
arguments included, but reset with explicit new counts excepted —
preserves both counts. -/
theorem variable_counts_fixed_at_construction
    (ni nd : ℕ) (s : ADHelperBase) :
    (ADHelperBase.init ni nd).n_independent_variables = ni ∧
    (ADHelperBase.init ni nd).n_dependent_variables = nd ∧
    (∀ clear, (s.reset invalid_unsigned_int invalid_unsigned_int clear).counts =
      s.counts) ∧
    (∀ tu o l v t, (ADHelperBase.set_tape_buffer_sizes tu s o l v t).counts =
      s.counts) ∧
    (∀ idx ow kp b r, s.start_recording_operations idx ow kp = .ok (b, r) →
      r.counts = s.counts) ∧
    (∀ w r, s.stop_recording_operations w = .ok r → r.counts = s.counts) ∧
    (∀ idx r, s.activate_recorded_tape idx = .ok r → r.counts = s.counts) ∧
    (∀ i q r, s.set_sensitivity_value i q = .ok r → r.counts = s.counts) ∧
    (∀ i ex r, s.mark_independent_variable i = .ok (ex, r) →
      r.counts = s.counts) ∧
    (∀ i ex r, s.register_dependent_variable i ex = .ok r →
      r.counts = s.counts) := by
  refine ⟨rfl, rfl, ?_, ?_, ?_, ?_, ?_, ?_, ?_, ?_⟩
  · intro clear
    simp [ADHelperBase.reset, ADHelperBase.counts,
      ADHelperBase.n_independent_variables, ADHelperBase.n_dependent_variables]
  · intro tu o l v t
    cases tu <;> simp [ADHelperBase.set_tape_buffer_sizes, ADHelperBase.counts,
      ADHelperBase.n_independent_variables, ADHelperBase.n_dependent_variables]
  · intro idx ow kp b r h
    simp only [ADHelperBase.start_recording_operations] at h
    split at h
    · simp at h
    · split at h
      · simp at h
      · split at h
        · simp only [Except.ok.injEq, Prod.mk.injEq] at h
          obtain ⟨-, rfl⟩ := h
          rfl
        · simp only [Except.ok.injEq, Prod.mk.injEq] at h
          obtain ⟨-, rfl⟩ := h
          rfl
  · intro w r h
    simp only [ADHelperBase.stop_recording_operations] at h
    split at h
    · simp at h
    · split at h
      · simp at h
      · simp only [Except.ok.injEq] at h
        subst h
        rfl
  · intro idx r h
    simp only [ADHelperBase.activate_recorded_tape] at h
    split at h
    · simp at h
    · split at h
      · simp at h
      · simp only [Except.ok.injEq] at h
        subst h
        rfl
  · intro i q r h
    simp only [ADHelperBase.set_sensitivity_value] at h
    split at h
    · simp at h
    · simp only [Except.ok.injEq] at h
      subst h
      rfl
  · intro i ex r h
    simp only [ADHelperBase.mark_independent_variable] at h
    split at h
    · simp at h
    · split at h
      · simp at h
      · split at h
        · simp at h
        · simp only [Except.ok.injEq, Prod.mk.injEq] at h
          obtain ⟨-, rfl⟩ := h
          rfl
  · intro i ex r h
    simp only [ADHelperBase.register_dependent_variable] at h
    split at h
    · simp at h
    · split at h
      · simp at h
      · simp only [Except.ok.injEq] at h
        subst h
        rfl

/-- Closed witness: a helper built for (2, 1) reports those counts, and
the full record/stop cycle of the concrete scenario preserves them. -/
theorem variable_counts_fixed_at_construction_witness :
    (ADHelperBase.init 2 1).n_independent_variables = 2 ∧
    (ADHelperBase.init 2 1).n_dependent_variables = 1 ∧
    readyState.counts = recState.counts := by
  obtain ⟨h1, h2, -, -, -, hstop, -⟩ :=
    variable_counts_fixed_at_construction 2 1 recState
  exact ⟨h1, h2, hstop false readyState rfl⟩

end AD
end DealII
